import Mathlib

/-!
Shallow embedding of the 3DCP wall-package cost estimator (src/app.py).

Python floats are modelled as exact rationals (ℚ); Python ints as ℤ.
Division by a possibly-zero denominator raises ZeroDivisionError in Python,
so `calculate_costs` returns an `Option`: it is `none` exactly when one of
the unguarded denominators (home count, floor area, and — when the printer
is owned — depreciation years and annual utilization) is zero.  All other
divisions in the source have denominators that are clamped to a positive
minimum, so they are translated as plain rational division.

Each named definition below mirrors one local variable of the source
function it embeds; source line numbers are given in comments.
-/

namespace App

-- Section 1: constants and conversions (app.py lines 15-22)
def SQ_M_TO_SQ_FT : ℚ := 10.7639104
def TONNE_TO_TON : ℚ := 1.10231
def KG_M3_TO_LBS_FT3 : ℚ := 0.06242796
def MM_TO_FT : ℚ := 0.00328084
def MM_TO_INCH : ℚ := 0.0393701
def M_TO_FT : ℚ := 3.28084
def FT_TO_M : ℚ := 0.3048
def SHIFT_HOURS : ℚ := 8

-- Section 2: catalogs (app.py lines 27-76)
structure PrinterSpec where
  price : ℚ
  speed_mm_s : ℤ
  setup_days : ℚ
  teardown_days : ℚ
  crew_size : ℤ
  efficiency : ℚ
  bead_width_mm : ℚ
  layer_height_mm : ℚ
  deriving DecidableEq

structure MaterialSpec where
  mat_type : String
  price_ton : ℚ
  density_lbs_ft3 : ℚ
  waste_pct : ℚ
  deriving DecidableEq

def cobodBOD2 : PrinterSpec :=
  ⟨580000, 250, 1.0, 1.0, 3, 0.65, 50, 20⟩

def PRINTERS : List (String × PrinterSpec) :=
  [("COBOD BOD2", cobodBOD2),
   ("COBOD BOD3", ⟨1000000, 250, 1.0, 1.0, 3, 0.70, 50, 20⟩),
   ("CyBe RC (Robot Crawler)", ⟨230000, 250, 0.5, 0.5, 2, 0.55, 40, 15⟩),
   ("MudBots (25x25 Model)", ⟨285000, 144, 1.0, 1.0, 3, 0.50, 40, 20⟩),
   ("RIC Technology RIC-M1", ⟨250000, 150, 0.2, 0.2, 2, 0.55, 50, 20⟩),
   ("X-Hab 3D MX3DP", ⟨450000, 250, 0.2, 0.2, 3, 0.55, 45, 20⟩),
   ("Coral 3DCP (Mobile Unit)", ⟨350000, 330, 0.2, 0.2, 2, 0.55, 60, 20⟩),
   ("Alquist 3D A1X", ⟨450000, 200, 1.0, 1.0, 3, 0.60, 50, 20⟩),
   ("SQ4D ARCS", ⟨400000, 250, 2.0, 2.0, 3, 0.65, 80, 25⟩)]

def localConcreteDfab : MaterialSpec := ⟨"Admix", 70, 145, 0.10⟩

def MATERIALS : List (String × MaterialSpec) :=
  [("Local Concrete + D.fab", localConcreteDfab),
   ("CyBe Mortar", ⟨"Premix", 420, 131, 0.05⟩),
   ("CyBe Power Pack", ⟨"Premix", 150, 145, 0.05⟩),
   ("Sika Sikacrete-733 3D", ⟨"Premix", 450, 137, 0.03⟩),
   ("Heidelberg evoBuild / i.tech", ⟨"Premix", 500, 134, 0.04⟩),
   ("Eco Material PozzoCEM", ⟨"Green-Mix", 200, 137, 0.08⟩),
   ("Eco Material PozzoSlag", ⟨"Green-Mix", 125, 137, 0.08⟩),
   ("Local Concrete + Coral Admix", ⟨"Admix", 80, 145, 0.10⟩),
   ("Local Concrete + SQ4D Admix", ⟨"Admix", 150, 145, 0.10⟩)]

-- Section 3: helpers (app.py lines 81-107)

/-- Embeds get_printer_specs (app.py line 81): dict .get with the
COBOD BOD2 entry as the default. -/
def get_printer_specs (name : String) : PrinterSpec :=
  (PRINTERS.lookup name).getD cobodBOD2

/-- Embeds get_material_specs (app.py line 84). -/
def get_material_specs (name : String) : MaterialSpec :=
  (MATERIALS.lookup name).getD localConcreteDfab

/-- Embeds safe_div (app.py line 94): returns 0 on a zero denominator.
Note: this helper is defined in the source but never called from
calculate_costs. -/
def safe_div (a b : ℚ) : ℚ :=
  if b ≠ 0 then a / b else 0

/-- Embeds round_to_nearest_thousand (app.py line 97). -/
def round_to_nearest_thousand (x : ℚ) : ℤ :=
  ⌊(max 0 x + 500) / 1000⌋ * 1000

/-- Embeds calc_monthly_payment (app.py lines 101-107). -/
def calc_monthly_payment (principal : ℚ) (annual_rate : ℚ := 0.10)
    (months : ℤ := 60) : ℚ :=
  let principal := max 0 principal
  let months := max 1 months
  let r := annual_rate / 12
  if r ≤ 0 then principal / (months : ℚ)
  else principal * r / (1 - (1 + r) ^ (-months))

-- Section 4: the cost engine (app.py lines 210-380).
-- The input dict p of calculate_costs, as assembled at app.py lines 837-875.
structure CostInputs where
  sq_ft_home : ℚ
  wall_density : ℚ
  wall_height_ft : ℚ
  layer_h_mm : ℚ
  passes_per_layer : ℤ
  print_speed_mm_s : ℤ
  efficiency : ℚ
  bead_w_mm : ℚ
  final_density_lbs_ft3 : ℚ
  mat_price_ton : ℚ
  waste_pct : ℚ
  setup_days : ℚ
  teardown_days : ℚ
  moves_count : ℤ
  crew_size : ℤ
  labor_rate : ℚ
  printer_price : ℚ
  residual_value_pct : ℚ
  depreciation_years : ℤ
  est_prints_per_year : ℤ
  crane_rate : ℚ
  num_homes : ℤ
  rebar_cost_ft : ℚ
  misc_bos_sqft : ℚ
  sga_per_home : ℚ
  printer_upfront_pct : ℚ
  printer_acquisition_type : String
  printer_monthly_payment : ℚ
  deriving DecidableEq

/-- Advisory warnings appended by calculate_costs (tags for the three
f-string messages at app.py lines 217, 219 and 263). -/
inductive EngWarning where
  | effAggressive
  | slumpRisk
  | flowExceeds
  deriving DecidableEq

-- Intermediate quantities of calculate_costs, one def per source local.

/-- safe_eff = max(0.01, efficiency) (app.py line 214). -/
def safe_eff (p : CostInputs) : ℚ := max 0.01 p.efficiency

/-- linear_wall_ft (app.py line 222). -/
def linear_wall_ft (p : CostInputs) : ℚ := p.sq_ft_home * p.wall_density

/-- wall_sq_ft (app.py line 223). -/
def wall_sq_ft (p : CostInputs) : ℚ := linear_wall_ft p * p.wall_height_ft

/-- wall_height_mm (app.py line 224). -/
def wall_height_mm (p : CostInputs) : ℚ := p.wall_height_ft * 304.8

/-- layer_h_mm_safe = max(0.5, layer_h_mm) (app.py line 226). -/
def layer_h_mm_safe (p : CostInputs) : ℚ := max 0.5 p.layer_h_mm

/-- bead_w_mm_safe = max(1.0, bead_w_mm) (app.py line 227). -/
def bead_w_mm_safe (p : CostInputs) : ℚ := max 1 p.bead_w_mm

/-- total_layers (app.py line 229); the clamped layer height is ≥ 0.5,
so the division cannot fail. -/
def total_layers (p : CostInputs) : ℚ := wall_height_mm p / layer_h_mm_safe p

/-- total_path_length_ft (app.py line 230). -/
def total_path_length_ft (p : CostInputs) : ℚ :=
  linear_wall_ft p * total_layers p * (p.passes_per_layer : ℚ)

/-- avg_speed_mm_s = max(1.0, print_speed_mm_s) (app.py line 238). -/
def avg_speed_mm_s (p : CostInputs) : ℚ := max 1 (p.print_speed_mm_s : ℚ)

/-- speed_ft_hr (app.py line 240). -/
def speed_ft_hr (p : CostInputs) : ℚ := avg_speed_mm_s p * 11.811

/-- theoretical_time_hr (app.py line 241); speed_ft_hr ≥ 11.811 > 0. -/
def theoretical_time_hr (p : CostInputs) : ℚ :=
  total_path_length_ft p / speed_ft_hr p

/-- real_print_time_hr (app.py line 242); safe_eff ≥ 0.01 > 0. -/
def real_print_time_hr (p : CostInputs) : ℚ :=
  theoretical_time_hr p / safe_eff p

/-- print_days (app.py line 244). -/
def print_days (p : CostInputs) : ℚ := real_print_time_hr p / SHIFT_HOURS

/-- total_project_days (app.py line 245). -/
def total_project_days (p : CostInputs) : ℚ :=
  (p.setup_days + p.teardown_days) * (p.moves_count : ℚ)
    + print_days p * (p.num_homes : ℚ)

/-- days_per_home (app.py line 246); in Python this division raises when
num_homes = 0 — that case is excluded by the guard in calculate_costs. -/
def days_per_home (p : CostInputs) : ℚ :=
  total_project_days p / (p.num_homes : ℚ)

/-- project_months = max(1, ceil(total_project_days / 30)) (app.py line 248). -/
def project_months (p : CostInputs) : ℤ :=
  max 1 ⌈total_project_days p / 30⌉

/-- vol_cu_ft (app.py line 256). -/
def vol_cu_ft (p : CostInputs) : ℚ :=
  total_path_length_ft p * (layer_h_mm_safe p * MM_TO_FT)
    * (bead_w_mm_safe p * MM_TO_FT)

/-- weight_lbs (app.py line 257). -/
def weight_lbs (p : CostInputs) : ℚ := vol_cu_ft p * p.final_density_lbs_ft3

/-- weight_tons (app.py line 258). -/
def weight_tons (p : CostInputs) : ℚ := weight_lbs p / 2000

/-- total_mat_cost_per_home (app.py line 259). -/
def total_mat_cost_per_home (p : CostInputs) : ℚ :=
  weight_tons p * p.mat_price_ton * (1 + p.waste_pct)

/-- flow_rate_l_min (app.py line 261). -/
def flow_rate_l_min (p : CostInputs) : ℚ :=
  (avg_speed_mm_s p * bead_w_mm_safe p * layer_h_mm_safe p * 60) / 1000000

/-- setup_hrs_per_move (app.py line 266). -/
def setup_hrs_per_move (p : CostInputs) : ℚ := p.setup_days * SHIFT_HOURS

/-- teardown_hrs_per_move (app.py line 267). -/
def teardown_hrs_per_move (p : CostInputs) : ℚ := p.teardown_days * SHIFT_HOURS

/-- labor_setup_per_move (app.py line 269). -/
def labor_setup_per_move (p : CostInputs) : ℚ :=
  (setup_hrs_per_move p + teardown_hrs_per_move p) * (p.crew_size : ℚ)
    * p.labor_rate

/-- labor_print_per_home (app.py line 270). -/
def labor_print_per_home (p : CostInputs) : ℚ :=
  real_print_time_hr p * (p.crew_size : ℚ) * p.labor_rate

/-- total_setup_labor_project (app.py line 272). -/
def total_setup_labor_project (p : CostInputs) : ℚ :=
  labor_setup_per_move p * (p.moves_count : ℚ)

/-- total_print_labor_project (app.py line 273). -/
def total_print_labor_project (p : CostInputs) : ℚ :=
  labor_print_per_home p * (p.num_homes : ℚ)

/-- total_labor_cost_per_home (app.py line 274); divides by num_homes. -/
def total_labor_cost_per_home (p : CostInputs) : ℚ :=
  (total_setup_labor_project p + total_print_labor_project p)
    / (p.num_homes : ℚ)

/-- logistics_cost_per_move (app.py line 277). -/
def logistics_cost_per_move (p : CostInputs) : ℚ :=
  (p.setup_days + p.teardown_days) * p.crane_rate

/-- total_logistics_cost (app.py line 278). -/
def total_logistics_cost (p : CostInputs) : ℚ :=
  logistics_cost_per_move p * (p.moves_count : ℚ)

/-- logistics_cost_per_home (app.py line 279); divides by num_homes. -/
def logistics_cost_per_home (p : CostInputs) : ℚ :=
  total_logistics_cost p / (p.num_homes : ℚ)

/-- rebar_total (app.py line 282). -/
def rebar_total (p : CostInputs) : ℚ := linear_wall_ft p * p.rebar_cost_ft

/-- misc_bos_total (app.py line 283). -/
def misc_bos_total (p : CostInputs) : ℚ := wall_sq_ft p * p.misc_bos_sqft

/-- total_bos_cost (app.py line 284). -/
def total_bos_cost (p : CostInputs) : ℚ := rebar_total p + misc_bos_total p

/-- printer_upfront_cash (app.py line 290). -/
def printer_upfront_cash (p : CostInputs) : ℚ :=
  p.printer_price * p.printer_upfront_pct

/-- own_printer (app.py line 295): every acquisition type other than
"Lease/Rent (Expense)" counts as owned. -/
def own_printer (p : CostInputs) : Bool :=
  p.printer_acquisition_type != "Lease/Rent (Expense)"

/-- machine_cost_per_home (app.py lines 298-302): non-cash depreciation, only
when owned; divides by depreciation_years and est_prints_per_year. -/
def machine_cost_per_home (p : CostInputs) : ℚ :=
  if own_printer p then
    (p.printer_price * (1 - p.residual_value_pct) / (p.depreciation_years : ℚ))
      / (p.est_prints_per_year : ℚ)
  else 0

/-- printer_lease_expense_per_home (app.py lines 305-309). -/
def printer_lease_expense_per_home (p : CostInputs) : ℚ :=
  if own_printer p = false ∧ 0 < p.printer_monthly_payment then
    p.printer_monthly_payment * (project_months p : ℚ) / (p.num_homes : ℚ)
  else 0

/-- printer_debt_service_per_home (app.py lines 312-316). -/
def printer_debt_service_per_home (p : CostInputs) : ℚ :=
  if own_printer p = true ∧ p.printer_acquisition_type = "Finance (Own)"
      ∧ 0 < p.printer_monthly_payment ∧ p.printer_upfront_pct < 1 then
    p.printer_monthly_payment * (project_months p : ℚ) / (p.num_homes : ℚ)
  else 0

/-- cash_cogs_core (app.py line 319). -/
def cash_cogs_core (p : CostInputs) : ℚ :=
  total_mat_cost_per_home p + total_labor_cost_per_home p
    + logistics_cost_per_home p + total_bos_cost p

/-- cash_cogs_total (app.py line 320): lease adds to COGS. -/
def cash_cogs_total (p : CostInputs) : ℚ :=
  cash_cogs_core p + printer_lease_expense_per_home p

/-- grand_total (app.py line 322). -/
def grand_total (p : CostInputs) : ℚ :=
  cash_cogs_total p + (if own_printer p then machine_cost_per_home p else 0)

/-- first_payment_cash (app.py line 325). -/
def first_payment_cash (p : CostInputs) : ℚ :=
  if p.printer_upfront_pct < 1 ∧ 0 < p.printer_monthly_payment then
    p.printer_monthly_payment
  else 0

/-- cash_required (app.py lines 326-333). -/
def cash_required (p : CostInputs) : ℚ :=
  printer_upfront_cash p + logistics_cost_per_move p + labor_setup_per_move p
    + labor_print_per_home p + total_mat_cost_per_home p + first_payment_cash p

/-- cost_per_area (app.py lines 336-341); divides by the floor area. -/
def cost_per_area (p : CostInputs) (is_metric : Bool) : ℚ :=
  if is_metric then grand_total p / (p.sq_ft_home / SQ_M_TO_SQ_FT)
  else grand_total p / p.sq_ft_home

/-- home_area (app.py lines 339-342). -/
def home_area (p : CostInputs) (is_metric : Bool) : ℚ :=
  if is_metric then p.sq_ft_home / SQ_M_TO_SQ_FT else p.sq_ft_home

/-- warnings accumulated by calculate_costs in source order (app.py
lines 216-219 and 262-263). -/
def warnings_list (p : CostInputs) : List EngWarning :=
  (if safe_eff p > 0.90 then [EngWarning.effAggressive] else [])
    ++ (if p.print_speed_mm_s > 300 ∧ p.layer_h_mm > 25
        then [EngWarning.slumpRisk] else [])
    ++ (if flow_rate_l_min p > 30 then [EngWarning.flowExceeds] else [])

/-- The result dict returned by calculate_costs (app.py lines 344-380);
the human-readable audit strings are omitted. -/
structure CostResult where
  grand_total : ℚ
  cash_cost_total : ℚ
  cash_cogs_total : ℚ
  cash_cogs_core : ℚ
  mat_cost : ℚ
  labor_cost : ℚ
  logistics_cost : ℚ
  bos_cost : ℚ
  machine_cost : ℚ
  printer_upfront_cash : ℚ
  printer_acquisition_type : String
  printer_monthly_payment : ℚ
  printer_lease_expense_per_home : ℚ
  printer_debt_service_per_home : ℚ
  project_months : ℤ
  real_print_time_hr : ℚ
  weight_tons : ℚ
  total_path_length_ft : ℚ
  total_layers : ℚ
  avg_speed_mm_s : ℚ
  days_per_home : ℚ
  total_project_days : ℚ
  cash_required : ℚ
  cost_per_area : ℚ
  flow_rate : ℚ
  warnings : List EngWarning
  linear_wall_ft : ℚ
  wall_sq_ft : ℚ
  home_area : ℚ
  deriving DecidableEq

/-- The record calculate_costs returns when no division fails. -/
def mkResult (p : CostInputs) (is_metric : Bool) : CostResult where
  grand_total := grand_total p
  cash_cost_total := cash_cogs_total p
  cash_cogs_total := cash_cogs_total p
  cash_cogs_core := cash_cogs_core p
  mat_cost := total_mat_cost_per_home p
  labor_cost := total_labor_cost_per_home p
  logistics_cost := logistics_cost_per_home p
  bos_cost := total_bos_cost p
  machine_cost := machine_cost_per_home p
  printer_upfront_cash := printer_upfront_cash p
  printer_acquisition_type := p.printer_acquisition_type
  printer_monthly_payment := p.printer_monthly_payment
  printer_lease_expense_per_home := printer_lease_expense_per_home p
  printer_debt_service_per_home := printer_debt_service_per_home p
  project_months := project_months p
  real_print_time_hr := real_print_time_hr p
  weight_tons := weight_tons p
  total_path_length_ft := total_path_length_ft p
  total_layers := total_layers p
  avg_speed_mm_s := avg_speed_mm_s p
  days_per_home := days_per_home p
  total_project_days := total_project_days p
  cash_required := cash_required p
  cost_per_area := cost_per_area p is_metric
  flow_rate := flow_rate_l_min p
  warnings := warnings_list p
  linear_wall_ft := linear_wall_ft p
  wall_sq_ft := wall_sq_ft p
  home_area := home_area p is_metric

/-- Embeds calculate_costs (app.py lines 210-380).  Python float division by
zero raises ZeroDivisionError; the guard below is `none` exactly in the
cases where some division of the source raises: days_per_home, labor,
logistics, lease and debt-service divide by num_homes (line 246 first);
machine_cost divides by depreciation_years and est_prints_per_year, but
only when the printer is owned (lines 299-300); cost_per_area divides by
the floor area (lines 336-341).  Every other denominator is clamped to a
positive constant.  When no division fails, the result is mkResult. -/
def calculate_costs (p : CostInputs) (is_metric : Bool) : Option CostResult :=
  if p.num_homes = 0 ∨ p.sq_ft_home = 0
      ∨ (own_printer p = true
          ∧ (p.depreciation_years = 0 ∨ p.est_prints_per_year = 0)) then
    none
  else
    some (mkResult p is_metric)

-- Section 4.5: the P&L projection (app.py lines 109-160).

/-- One row of the two-column P&L table: line item, Cash column,
Accounting column. -/
structure PnlRow where
  item : String
  cash : ℚ
  accrual : ℚ
  deriving DecidableEq

/-- Embeds build_pnl_df (app.py lines 109-160), keeping the computed
numbers: the line-item rows and the margin-metric rows (the pandas
DataFrame wrapper and display formatting are omitted). -/
def build_pnl_df (res : CostResult) (sale_price sga_per_home : ℚ) :
    List PnlRow × List PnlRow :=
  let cash_cogs := res.cash_cogs_total
  let da := res.machine_cost
  let gross_profit := sale_price - cash_cogs
  let ebitda := gross_profit - sga_per_home
  let cash_ebit := ebitda
  let accrual_ebit := ebitda - da
  let rows : List PnlRow :=
    [⟨"Revenue", sale_price, sale_price⟩,
     ⟨"COGS — Material", res.mat_cost, res.mat_cost⟩,
     ⟨"COGS — Labor", res.labor_cost, res.labor_cost⟩,
     ⟨"COGS — Logistics", res.logistics_cost, res.logistics_cost⟩,
     ⟨"COGS — Integration", res.bos_cost, res.bos_cost⟩,
     ⟨"Total COGS (Cash)", cash_cogs, cash_cogs⟩,
     ⟨"Gross Profit", gross_profit, gross_profit⟩,
     ⟨"SG&A / Overhead", sga_per_home, sga_per_home⟩,
     ⟨"EBITDA", ebitda, ebitda⟩,
     ⟨"Depreciation/Amortization (Printer)", 0, da⟩,
     ⟨"EBIT (Operating Profit)", cash_ebit, accrual_ebit⟩]
  let metrics : List PnlRow :=
    if sale_price > 0 then
      [⟨"EBITDA Margin", ebitda / sale_price, ebitda / sale_price⟩,
       ⟨"EBIT Margin", cash_ebit / sale_price, accrual_ebit / sale_price⟩,
       ⟨"Cash COGS % of Revenue", cash_cogs / sale_price,
         cash_cogs / sale_price⟩]
    else
      [⟨"EBITDA Margin", 0, 0⟩,
       ⟨"EBIT Margin", 0, 0⟩,
       ⟨"Cash COGS % of Revenue", 0, 0⟩]
  (rows, metrics)

-- Shared helper lemmas and example inputs.

/-- Characterization of the success case of the engine: when no unguarded
denominator is zero, calculate_costs returns the mkResult record. -/
theorem calculate_costs_some (p : CostInputs) (m : Bool)
    (h1 : p.num_homes ≠ 0) (h2 : p.sq_ft_home ≠ 0)
    (h3 : own_printer p = true →
      p.depreciation_years ≠ 0 ∧ p.est_prints_per_year ≠ 0) :
    calculate_costs p m = some (mkResult p m) := by
  unfold calculate_costs
  rw [if_neg]
  push_neg
  exact ⟨h1, h2, fun hown => ⟨(h3 hown).1, (h3 hown).2⟩⟩

/-- Every successful run of the engine produces exactly the mkResult record,
and its input had no zero unguarded denominator. -/
theorem calculate_costs_inv {p : CostInputs} {m : Bool} {r : CostResult}
    (h : calculate_costs p m = some r) :
    r = mkResult p m ∧ p.num_homes ≠ 0 ∧ p.sq_ft_home ≠ 0
      ∧ (own_printer p = true →
          p.depreciation_years ≠ 0 ∧ p.est_prints_per_year ≠ 0) := by
  unfold calculate_costs at h
  split_ifs at h with hc
  push_neg at hc
  cases h
  exact ⟨rfl, hc.1, hc.2.1, fun hown => (hc.2.2 hown)⟩

/-- A neutral, fully well-formed input used to instantiate theorems with
hypotheses at a concrete point. -/
def exBase : CostInputs where
  sq_ft_home := 1500
  wall_density := 0.20
  wall_height_ft := 9
  layer_h_mm := 20
  passes_per_layer := 2
  print_speed_mm_s := 250
  efficiency := 0.65
  bead_w_mm := 50
  final_density_lbs_ft3 := 145
  mat_price_ton := 70
  waste_pct := 0.10
  setup_days := 1
  teardown_days := 1
  moves_count := 1
  crew_size := 3
  labor_rate := 40
  printer_price := 580000
  residual_value_pct := 0.20
  depreciation_years := 5
  est_prints_per_year := 12
  crane_rate := 1500
  num_homes := 1
  rebar_cost_ft := 2
  misc_bos_sqft := 2.25
  sga_per_home := 0
  printer_upfront_pct := 0.20
  printer_acquisition_type := "Cash (Own)"
  printer_monthly_payment := 0

/-- Claim C2: for every input and both unit-system flags, the accrual-basis
total grand_total equals the cash COGS total plus the per-home printer
depreciation machine_cost, in all acquisition modes. -/
theorem c2_accrual_identity (p : CostInputs) (m : Bool) (r : CostResult)
    (h : calculate_costs p m = some r) :
    r.grand_total = r.cash_cogs_total + r.machine_cost := by
  rcases calculate_costs_inv h with ⟨hr, -, -, -⟩
  subst hr
  show grand_total p = cash_cogs_total p + machine_cost_per_home p
  unfold grand_total machine_cost_per_home
  cases hown : own_printer p <;> simp [hown]

/-- Witness for C2 at the concrete input exBase. -/
theorem c2_accrual_identity_witness :
    (mkResult exBase false).grand_total
      = (mkResult exBase false).cash_cogs_total
        + (mkResult exBase false).machine_cost :=
  c2_accrual_identity exBase false (mkResult exBase false)
    (calculate_costs_some exBase false (by norm_num [exBase])
      (by norm_num [exBase])
      (fun _ => ⟨by norm_num [exBase], by norm_num [exBase]⟩))

/-- Claim C5: calc_monthly_payment clamps negative principal to 0 and months
to a minimum of 1; at rate 0 it is principal divided by months; at
principal 0 it is 0; at a positive rate it is the amortizing formula
principal * r / (1 - (1 + r) ^ (-n)) with r the monthly rate; and the
payment is always nonnegative and total. -/
theorem c5_monthly_payment_spec :
    (∀ (P r : ℚ) (n : ℤ), calc_monthly_payment P r n
        = calc_monthly_payment (max 0 P) r (max 1 n))
    ∧ (∀ (P : ℚ) (n : ℤ), 0 ≤ P → 1 ≤ n →
        calc_monthly_payment P 0 n = P / (n : ℚ))
    ∧ (∀ (r : ℚ) (n : ℤ), calc_monthly_payment 0 r n = 0)
    ∧ (∀ (P r : ℚ) (n : ℤ), 0 ≤ P → 1 ≤ n → 0 < r →
        calc_monthly_payment P r n
          = P * (r / 12) / (1 - (1 + r / 12) ^ (-n)))
    ∧ (∀ (P r : ℚ) (n : ℤ), 0 ≤ calc_monthly_payment P r n) := by
  refine ⟨?_, ?_, ?_, ?_, ?_⟩
  · intro P r n
    unfold calc_monthly_payment
    dsimp only
    rw [← max_assoc, max_self, ← max_assoc, max_self]
  · intro P n hP hn
    unfold calc_monthly_payment
    dsimp only
    rw [max_eq_right hP, max_eq_right hn]
    norm_num
  · intro r n
    unfold calc_monthly_payment
    dsimp only
    split_ifs <;> simp
  · intro P r n hP hn hr
    unfold calc_monthly_payment
    dsimp only
    rw [max_eq_right hP, max_eq_right hn, if_neg]
    push_neg
    positivity
  · intro P r n
    unfold calc_monthly_payment
    have hP0 : 0 ≤ max 0 P := le_max_left 0 P
    have hn1 : 1 ≤ max 1 n := le_max_left 1 n
    have hnq : (0 : ℚ) < ((max 1 n : ℤ) : ℚ) := by
      exact_mod_cast lt_of_lt_of_le zero_lt_one hn1
    dsimp only
    split_ifs with h
    · positivity
    · push_neg at h
      have h1 : (1 : ℚ) < 1 + r / 12 := by linarith
      have h2 : (1 : ℚ) < (1 + r / 12) ^ (max 1 n) :=
        one_lt_zpow₀ h1 (by omega)
      have h4 : (1 + r / 12) ^ (-(max 1 n)) < 1 := by
        rw [zpow_neg]
        exact inv_lt_one_of_one_lt₀ h2
      have h5 : (0 : ℚ) < 1 - (1 + r / 12) ^ (-(max 1 n)) := by linarith
      have h6 : 0 ≤ max 0 P * (r / 12) := by positivity
      positivity

/-- Witness for C5: a 12-month zero-rate loan of 1200 pays 100 per month,
and payments are nonnegative at a concrete negative principal. -/
theorem c5_monthly_payment_spec_witness :
    calc_monthly_payment 1200 0 12 = 100
      ∧ 0 ≤ calc_monthly_payment (-5) 0.10 60 := by
  constructor
  · rw [c5_monthly_payment_spec.2.1 1200 12 (by norm_num) (by norm_num)]
    norm_num
  · exact c5_monthly_payment_spec.2.2.2.2 (-5) 0.10 60

/-- Claim C9: catalog lookup is total — a present name returns its entry and
an absent name returns the defined default entry (the COBOD BOD2 printer,
the Local Concrete + D.fab material). -/
theorem c9_catalog_lookup_total (name : String) :
    (∀ s, PRINTERS.lookup name = some s → get_printer_specs name = s)
    ∧ (PRINTERS.lookup name = none → get_printer_specs name = cobodBOD2)
    ∧ PRINTERS.lookup "COBOD BOD2" = some cobodBOD2
    ∧ (∀ s, MATERIALS.lookup name = some s → get_material_specs name = s)
    ∧ (MATERIALS.lookup name = none → get_material_specs name = localConcreteDfab)
    ∧ MATERIALS.lookup "Local Concrete + D.fab" = some localConcreteDfab := by
  refine ⟨?_, ?_, rfl, ?_, ?_, rfl⟩
  · intro s h
    unfold get_printer_specs
    rw [h]
    rfl
  · intro h
    unfold get_printer_specs
    rw [h]
    rfl
  · intro s h
    unfold get_material_specs
    rw [h]
    rfl
  · intro h
    unfold get_material_specs
    rw [h]
    rfl

/-- Witness for C9: an absent name falls back to the defaults. -/
theorem c9_catalog_lookup_total_witness :
    get_printer_specs "No Such Printer" = cobodBOD2
      ∧ get_material_specs "No Such Printer" = localConcreteDfab :=
  ⟨(c9_catalog_lookup_total "No Such Printer").2.1 rfl,
   (c9_catalog_lookup_total "No Such Printer").2.2.2.2.1 rfl⟩

/-- Claim C10 (implicit): the engine clamps the print speed to a minimum of
1.0 mm/s before the time stage, so path length divided by speed is
well-defined and the time outputs are finite even for zero or negative
supplied speed. -/
theorem c10_speed_clamp (p : CostInputs) (m : Bool) (r : CostResult)
    (h : calculate_costs p m = some r) :
    r.avg_speed_mm_s = max 1 (p.print_speed_mm_s : ℚ)
    ∧ (p.print_speed_mm_s ≤ 0 → r.avg_speed_mm_s = 1)
    ∧ 0 < r.avg_speed_mm_s
    ∧ r.real_print_time_hr
        = total_path_length_ft p / (r.avg_speed_mm_s * 11.811) / safe_eff p := by
  rcases calculate_costs_inv h with ⟨hr, -, -, -⟩
  subst hr
  simp only [mkResult]
  refine ⟨rfl, ?_, ?_, rfl⟩
  · intro hle
    show avg_speed_mm_s p = 1
    unfold avg_speed_mm_s
    apply max_eq_left
    have : (p.print_speed_mm_s : ℚ) ≤ 0 := by exact_mod_cast hle
    linarith
  · show 0 < avg_speed_mm_s p
    unfold avg_speed_mm_s
    exact lt_of_lt_of_le zero_lt_one (le_max_left 1 (p.print_speed_mm_s : ℚ))

/-- Concrete input for the C10 witness: supplied print speed 0. -/
def exSpeedZero : CostInputs := { exBase with print_speed_mm_s := 0 }

/-- Concrete input for the C1 counterexample: floor area 0, every other
field well-formed. -/
def exZeroArea : CostInputs := { exBase with sq_ft_home := 0 }

/-- Counterexample to claim C1 as stated: an input with floor area 0 does
not yield a result — the cost-per-area division raises (none), because the
source divides grand_total by the raw floor area and never calls its
safe_div helper. -/
theorem c1_zero_floor_area_counterexample :
    exZeroArea.sq_ft_home = 0 ∧ exZeroArea.num_homes = 1
      ∧ calculate_costs exZeroArea false = none := by
  refine ⟨rfl, rfl, ?_⟩
  unfold calculate_costs
  have hcond : exZeroArea.num_homes = 0 ∨ exZeroArea.sq_ft_home = 0
      ∨ (own_printer exZeroArea = true
          ∧ (exZeroArea.depreciation_years = 0
              ∨ exZeroArea.est_prints_per_year = 0)) :=
    Or.inr (Or.inl rfl)
  rw [if_pos hcond]

/-- Claim C1 as amended: calculate_costs returns a result whenever the
unguarded denominators are nonzero — home count and floor area, plus
depreciation years and annual utilization when the printer is owned.
Efficiency, layer height, bead width and speed are clamped, but floor
area is not guarded. -/
theorem c1_engine_total_on_nonzero_denominators (p : CostInputs) (m : Bool)
    (h1 : p.num_homes ≠ 0) (h2 : p.sq_ft_home ≠ 0)
    (h3 : own_printer p = true →
      p.depreciation_years ≠ 0 ∧ p.est_prints_per_year ≠ 0) :
    ∃ r, calculate_costs p m = some r :=
  ⟨mkResult p m, calculate_costs_some p m h1 h2 h3⟩

/-- Witness for C1 at the concrete input exBase. -/
theorem c1_engine_total_on_nonzero_denominators_witness :
    ∃ r, calculate_costs exBase false = some r :=
  c1_engine_total_on_nonzero_denominators exBase false
    (by norm_num [exBase]) (by norm_num [exBase])
    (fun _ => ⟨by norm_num [exBase], by norm_num [exBase]⟩)

/-- Counterexample to claim C4 as stated: at the Scenario A inputs (which
exBase embeds) the engine returns layer count 137.16 = 9 × 304.8 / 20 (not
137) and path length 300 × 137.16 × 2 = 82296 ft (not 82200 ft) — the
source never floors the layer count before multiplying. -/
theorem c4_layer_count_counterexample :
    (calculate_costs exBase false).map
      (fun r => (r.linear_wall_ft, r.total_layers, r.total_path_length_ft))
      = some (300, 137.16, 82296)
    ∧ (137.16 : ℚ) ≠ 137 ∧ (82296 : ℚ) ≠ 82200 := by
  refine ⟨?_, by norm_num, by norm_num⟩
  rw [calculate_costs_some exBase false (by norm_num [exBase])
    (by norm_num [exBase])
    (fun _ => ⟨by norm_num [exBase], by norm_num [exBase]⟩)]
  simp only [Option.map_some']
  norm_num [mkResult, linear_wall_ft, total_layers, total_path_length_ft,
    wall_height_mm, layer_h_mm_safe, exBase]

/-- Claim C4 as amended: layer count = wall height in mm divided by the
clamped layer height and path length = linear wall length × layer count ×
passes per layer, so Scenario A yields linear wall length 300 ft, layer
count 137.16 (the audit string displays its floor, 137) and path length
82296 ft. -/
theorem c4_scenario_a_geometry :
    (∀ (p : CostInputs) (m : Bool) (r : CostResult),
      calculate_costs p m = some r →
        r.total_layers = wall_height_mm p / layer_h_mm_safe p
        ∧ r.total_path_length_ft
            = r.linear_wall_ft * r.total_layers * (p.passes_per_layer : ℚ)
        ∧ r.linear_wall_ft = p.sq_ft_home * p.wall_density)
    ∧ (calculate_costs exBase false).map
        (fun r => (r.linear_wall_ft, r.total_layers, r.total_path_length_ft))
        = some (300, 137.16, 82296) := by
  constructor
  · intro p m r h
    rcases calculate_costs_inv h with ⟨hr, -, -, -⟩
    subst hr
    simp only [mkResult]
    exact ⟨rfl, rfl, rfl⟩
  · rw [calculate_costs_some exBase false (by norm_num [exBase])
      (by norm_num [exBase])
      (fun _ => ⟨by norm_num [exBase], by norm_num [exBase]⟩)]
    simp only [Option.map_some']
    norm_num [mkResult, linear_wall_ft, total_layers, total_path_length_ft,
      wall_height_mm, layer_h_mm_safe, exBase]

/-- Witness for C4 at the Scenario A input. -/
theorem c4_scenario_a_geometry_witness :
    (mkResult exBase false).total_layers
        = wall_height_mm exBase / layer_h_mm_safe exBase
    ∧ (mkResult exBase false).total_path_length_ft
        = (mkResult exBase false).linear_wall_ft
            * (mkResult exBase false).total_layers
            * (exBase.passes_per_layer : ℚ)
    ∧ (mkResult exBase false).linear_wall_ft
        = exBase.sq_ft_home * exBase.wall_density :=
  c4_scenario_a_geometry.1 exBase false (mkResult exBase false)
    (calculate_costs_some exBase false (by norm_num [exBase])
      (by norm_num [exBase])
      (fun _ => ⟨by norm_num [exBase], by norm_num [exBase]⟩))

/-- Concrete input for the C3 counterexample: owned-cash mode with a
positive monthly payment, upfront fraction below 1, and printer price 0. -/
def exFreeCashOwn : CostInputs :=
  { exBase with
    printer_price := 0
    printer_monthly_payment := 1
    printer_upfront_pct := 0 }

/-- Counterexample to claim C3 as stated: an owned-cash input with positive
monthly payment and upfront fraction below 1 but printer price 0 returns
depreciation exactly 0, not nonzero. -/
theorem c3_zero_price_counterexample :
    exFreeCashOwn.printer_acquisition_type = "Cash (Own)"
    ∧ 0 < exFreeCashOwn.printer_monthly_payment
    ∧ exFreeCashOwn.printer_upfront_pct < 1
    ∧ (calculate_costs exFreeCashOwn false).map CostResult.machine_cost
        = some 0 := by
  refine ⟨rfl, by norm_num [exFreeCashOwn, exBase],
    by norm_num [exFreeCashOwn, exBase], ?_⟩
  rw [calculate_costs_some exFreeCashOwn false
    (by norm_num [exFreeCashOwn, exBase]) (by norm_num [exFreeCashOwn, exBase])
    (fun _ => ⟨by norm_num [exFreeCashOwn, exBase],
      by norm_num [exFreeCashOwn, exBase]⟩)]
  simp only [Option.map_some', Option.some.injEq]
  show machine_cost_per_home exFreeCashOwn = 0
  norm_num [machine_cost_per_home, own_printer, exFreeCashOwn, exBase]

/-- Claim C3 as amended: with a positive monthly payment, upfront fraction
below 1, nonzero printer price, and residual fraction not 1, owned-cash
mode yields nonzero depreciation only; leased mode yields nonzero lease
expense only; financed-owned mode yields nonzero depreciation and nonzero
debt service but zero lease expense, and the debt service is excluded from
cash_cogs_total and grand_total. -/
theorem c3_acquisition_mode_exclusivity (p : CostInputs) (m : Bool)
    (r : CostResult)
    (hpay : 0 < p.printer_monthly_payment)
    (hup : p.printer_upfront_pct < 1)
    (hprice : p.printer_price ≠ 0)
    (hres : p.residual_value_pct ≠ 1)
    (h : calculate_costs p m = some r) :
    (p.printer_acquisition_type = "Cash (Own)" →
      r.machine_cost ≠ 0 ∧ r.printer_lease_expense_per_home = 0
        ∧ r.printer_debt_service_per_home = 0)
    ∧ (p.printer_acquisition_type = "Lease/Rent (Expense)" →
      r.machine_cost = 0 ∧ r.printer_lease_expense_per_home ≠ 0
        ∧ r.printer_debt_service_per_home = 0)
    ∧ (p.printer_acquisition_type = "Finance (Own)" →
      r.machine_cost ≠ 0 ∧ r.printer_lease_expense_per_home = 0
        ∧ r.printer_debt_service_per_home ≠ 0
        ∧ r.cash_cogs_total = cash_cogs_core p
        ∧ r.grand_total = cash_cogs_core p + r.machine_cost) := by
  rcases calculate_costs_inv h with ⟨hr, hn, -, hguard⟩
  subst hr
  simp only [mkResult]
  have hnq : ((p.num_homes : ℤ) : ℚ) ≠ 0 := Int.cast_ne_zero.mpr hn
  have hmonths : ((project_months p : ℤ) : ℚ) ≠ 0 := by
    have h1 : 1 ≤ project_months p := le_max_left _ _
    have h2 : (0 : ℚ) < ((project_months p : ℤ) : ℚ) := by
      exact_mod_cast lt_of_lt_of_le zero_lt_one h1
    exact ne_of_gt h2
  refine ⟨?_, ?_, ?_⟩
  · intro hmode
    have hown : own_printer p = true := by
      unfold own_printer
      rw [hmode]
      rfl
    obtain ⟨hdep, hest⟩ := hguard hown
    refine ⟨?_, ?_, ?_⟩
    · unfold machine_cost_per_home
      rw [if_pos hown]
      exact div_ne_zero (div_ne_zero (mul_ne_zero hprice
        (sub_ne_zero.mpr (Ne.symm hres))) (Int.cast_ne_zero.mpr hdep))
        (Int.cast_ne_zero.mpr hest)
    · unfold printer_lease_expense_per_home
      rw [if_neg]
      rintro ⟨hf, -⟩
      rw [hown] at hf
      exact Bool.noConfusion hf
    · unfold printer_debt_service_per_home
      rw [if_neg]
      rintro ⟨-, hf, -, -⟩
      rw [hmode] at hf
      exact absurd hf (by decide)
  · intro hmode
    have hown : own_printer p = false := by
      unfold own_printer
      rw [hmode]
      rfl
    refine ⟨?_, ?_, ?_⟩
    · simp [machine_cost_per_home, hown]
    · unfold printer_lease_expense_per_home
      rw [if_pos ⟨hown, hpay⟩]
      exact div_ne_zero (mul_ne_zero (ne_of_gt hpay) hmonths) hnq
    · unfold printer_debt_service_per_home
      rw [if_neg]
      rintro ⟨hf, -⟩
      rw [hown] at hf
      exact Bool.noConfusion hf
  · intro hmode
    have hown : own_printer p = true := by
      unfold own_printer
      rw [hmode]
      rfl
    obtain ⟨hdep, hest⟩ := hguard hown
    have hlease : printer_lease_expense_per_home p = 0 := by
      unfold printer_lease_expense_per_home
      rw [if_neg]
      rintro ⟨hf, -⟩
      rw [hown] at hf
      exact Bool.noConfusion hf
    have hcogs : cash_cogs_total p = cash_cogs_core p := by
      unfold cash_cogs_total
      rw [hlease, add_zero]
    refine ⟨?_, hlease, ?_, hcogs, ?_⟩
    · unfold machine_cost_per_home
      rw [if_pos hown]
      exact div_ne_zero (div_ne_zero (mul_ne_zero hprice
        (sub_ne_zero.mpr (Ne.symm hres))) (Int.cast_ne_zero.mpr hdep))
        (Int.cast_ne_zero.mpr hest)
    · unfold printer_debt_service_per_home
      rw [if_pos ⟨hown, hmode, hpay, hup⟩]
      exact div_ne_zero (mul_ne_zero (ne_of_gt hpay) hmonths) hnq
    · unfold grand_total
      rw [if_pos hown, hcogs]

/-- Concrete input for the C3 witness: financed-owned mode with a positive
monthly payment. -/
def exFinance : CostInputs :=
  { exBase with
    printer_acquisition_type := "Finance (Own)"
    printer_monthly_payment := 9000 }

/-- Witness for C3 in financed-owned mode at a concrete input. -/
theorem c3_acquisition_mode_exclusivity_witness :
    (mkResult exFinance false).machine_cost ≠ 0
    ∧ (mkResult exFinance false).printer_lease_expense_per_home = 0
    ∧ (mkResult exFinance false).printer_debt_service_per_home ≠ 0
    ∧ (mkResult exFinance false).cash_cogs_total = cash_cogs_core exFinance
    ∧ (mkResult exFinance false).grand_total
        = cash_cogs_core exFinance + (mkResult exFinance false).machine_cost :=
  (c3_acquisition_mode_exclusivity exFinance false (mkResult exFinance false)
    (by norm_num [exFinance, exBase]) (by norm_num [exFinance, exBase])
    (by norm_num [exFinance, exBase]) (by norm_num [exFinance, exBase])
    (calculate_costs_some exFinance false (by norm_num [exFinance, exBase])
      (by norm_num [exFinance, exBase])
      (fun _ => ⟨by norm_num [exFinance, exBase],
        by norm_num [exFinance, exBase]⟩))).2.2 rfl

/-- Claim C6: the engine clamps efficiency to a minimum of 0.01, layer
height to a minimum of 0.5 mm and bead width to a minimum of 1.0 mm, and
emits the efficiency warning exactly when efficiency exceeds 0.90, the
slump warning exactly when print speed exceeds 300 mm/s and layer height
exceeds 25 mm simultaneously, and the flow warning exactly when the flow
rate exceeds 30 L/min.  The numeric outputs are given by closed formulas
in the inputs alone (first three conjuncts), so the warnings are advisory
and change no numeric output. -/
theorem c6_clamps_and_warnings (p : CostInputs) (m : Bool) (r : CostResult)
    (h : calculate_costs p m = some r) :
    r.real_print_time_hr
        = total_path_length_ft p / (max 1 (p.print_speed_mm_s : ℚ) * 11.811)
          / max 0.01 p.efficiency
    ∧ r.total_layers = wall_height_mm p / max 0.5 p.layer_h_mm
    ∧ r.flow_rate
        = max 1 (p.print_speed_mm_s : ℚ) * max 1 p.bead_w_mm
            * max 0.5 p.layer_h_mm * 60 / 1000000
    ∧ (EngWarning.effAggressive ∈ r.warnings ↔ 0.90 < p.efficiency)
    ∧ (EngWarning.slumpRisk ∈ r.warnings
        ↔ (300 < p.print_speed_mm_s ∧ 25 < p.layer_h_mm))
    ∧ (EngWarning.flowExceeds ∈ r.warnings ↔ 30 < r.flow_rate) := by
  rcases calculate_costs_inv h with ⟨hr, -, -, -⟩
  subst hr
  simp only [mkResult]
  refine ⟨?_, ?_, ?_, ?_, ?_, ?_⟩
  · unfold real_print_time_hr theoretical_time_hr speed_ft_hr avg_speed_mm_s
      safe_eff
    rfl
  · unfold total_layers layer_h_mm_safe
    rfl
  · unfold flow_rate_l_min avg_speed_mm_s bead_w_mm_safe layer_h_mm_safe
    rfl
  · have heq : (0.90 : ℚ) < safe_eff p ↔ 0.90 < p.efficiency := by
      unfold safe_eff
      rw [lt_max_iff]
      norm_num
    rw [← heq]
    unfold warnings_list
    split_ifs <;> simp_all
  · unfold warnings_list
    split_ifs <;> simp_all
  · unfold warnings_list
    split_ifs <;> simp_all

/-- Concrete input for the C6 witness: all three warning conditions hold. -/
def exWarnAll : CostInputs :=
  { exBase with efficiency := 0.95, print_speed_mm_s := 400, layer_h_mm := 30 }

/-- Witness for C6 at a concrete input that fires all three warnings. -/
theorem c6_clamps_and_warnings_witness :
    EngWarning.effAggressive ∈ (mkResult exWarnAll false).warnings
    ∧ EngWarning.slumpRisk ∈ (mkResult exWarnAll false).warnings
    ∧ EngWarning.flowExceeds ∈ (mkResult exWarnAll false).warnings := by
  have h := c6_clamps_and_warnings exWarnAll false (mkResult exWarnAll false)
    (calculate_costs_some exWarnAll false
      (by norm_num [exWarnAll, exBase]) (by norm_num [exWarnAll, exBase])
      (fun _ => ⟨by norm_num [exWarnAll, exBase],
        by norm_num [exWarnAll, exBase]⟩))
  refine ⟨h.2.2.2.1.mpr (by norm_num [exWarnAll, exBase]),
    h.2.2.2.2.1.mpr ⟨by norm_num [exWarnAll, exBase],
      by norm_num [exWarnAll, exBase]⟩, h.2.2.2.2.2.mpr ?_⟩
  rw [h.2.2.1]
  norm_num [exWarnAll, exBase]

/-- Concrete input for the C7 counterexample: no wall to print, so the only
cost is the per-move setup labor, which is amortized over the home count. -/
def exAmort : CostInputs where
  sq_ft_home := 1
  wall_density := 0
  wall_height_ft := 0
  layer_h_mm := 20
  passes_per_layer := 1
  print_speed_mm_s := 250
  efficiency := 0.65
  bead_w_mm := 50
  final_density_lbs_ft3 := 145
  mat_price_ton := 70
  waste_pct := 0
  setup_days := 1
  teardown_days := 0
  moves_count := 1
  crew_size := 1
  labor_rate := 8
  printer_price := 0
  residual_value_pct := 0
  depreciation_years := 1
  est_prints_per_year := 1
  crane_rate := 0
  num_homes := 1
  rebar_cost_ft := 0
  misc_bos_sqft := 0
  sga_per_home := 0
  printer_upfront_pct := 0
  printer_acquisition_type := "Cash (Own)"
  printer_monthly_payment := 0

/-- The same input with two homes instead of one. -/
def exAmort2 : CostInputs := { exAmort with num_homes := 2 }

/-- Counterexample to the invariance part of claim C7: the two inputs differ
only in home count, the per-home print time and move count are unchanged,
yet cost-per-area drops from 64 to 32 because the per-move setup labor is
amortized over the homes. -/
theorem c7_cost_per_area_counterexample :
    exAmort2 = { exAmort with num_homes := 2 }
    ∧ (calculate_costs exAmort false).map CostResult.real_print_time_hr
        = (calculate_costs exAmort2 false).map CostResult.real_print_time_hr
    ∧ (calculate_costs exAmort false).map CostResult.cost_per_area = some 64
    ∧ (calculate_costs exAmort2 false).map CostResult.cost_per_area = some 32
    ∧ (64 : ℚ) ≠ 32 := by
  have cs1 := calculate_costs_some exAmort false (by norm_num [exAmort])
    (by norm_num [exAmort])
    (fun _ => ⟨by norm_num [exAmort], by norm_num [exAmort]⟩)
  have cs2 := calculate_costs_some exAmort2 false
    (by norm_num [exAmort2, exAmort]) (by norm_num [exAmort2, exAmort])
    (fun _ => ⟨by norm_num [exAmort2, exAmort], by norm_num [exAmort2, exAmort]⟩)
  refine ⟨rfl, ?_, ?_, ?_, by norm_num⟩
  · rw [cs1, cs2]
    simp only [Option.map_some', Option.some.injEq]
    show real_print_time_hr exAmort = real_print_time_hr exAmort2
    rfl
  · rw [cs1]
    simp only [Option.map_some', Option.some.injEq]
    show cost_per_area exAmort false = 64
    norm_num [cost_per_area, grand_total, cash_cogs_total, cash_cogs_core,
      total_mat_cost_per_home, weight_tons, weight_lbs, vol_cu_ft,
      total_path_length_ft, total_layers, wall_height_mm, layer_h_mm_safe,
      bead_w_mm_safe, linear_wall_ft, total_labor_cost_per_home,
      total_setup_labor_project, total_print_labor_project,
      labor_setup_per_move, labor_print_per_home, setup_hrs_per_move,
      teardown_hrs_per_move, real_print_time_hr, theoretical_time_hr,
      speed_ft_hr, avg_speed_mm_s, safe_eff, SHIFT_HOURS, MM_TO_FT,
      logistics_cost_per_home, total_logistics_cost, logistics_cost_per_move,
      total_bos_cost, rebar_total, misc_bos_total, machine_cost_per_home,
      own_printer, printer_lease_expense_per_home, exAmort]
  · rw [cs2]
    simp only [Option.map_some', Option.some.injEq]
    show cost_per_area exAmort2 false = 32
    norm_num [cost_per_area, grand_total, cash_cogs_total, cash_cogs_core,
      total_mat_cost_per_home, weight_tons, weight_lbs, vol_cu_ft,
      total_path_length_ft, total_layers, wall_height_mm, layer_h_mm_safe,
      bead_w_mm_safe, linear_wall_ft, total_labor_cost_per_home,
      total_setup_labor_project, total_print_labor_project,
      labor_setup_per_move, labor_print_per_home, setup_hrs_per_move,
      teardown_hrs_per_move, real_print_time_hr, theoretical_time_hr,
      speed_ft_hr, avg_speed_mm_s, safe_eff, SHIFT_HOURS, MM_TO_FT,
      logistics_cost_per_home, total_logistics_cost, logistics_cost_per_move,
      total_bos_cost, rebar_total, misc_bos_total, machine_cost_per_home,
      own_printer, printer_lease_expense_per_home, exAmort2, exAmort]

/-- Claim C7 as amended: holding every other input fixed, increasing the
home count weakly decreases the per-home labor, logistics and printer
costs; cost-per-area is invariant under home-count changes when the
per-move setup and teardown days are zero and the monthly payment is zero
— in general it varies, because per-move labor and crane costs are
amortized over the homes. -/
theorem c7_per_home_amortization (p : CostInputs) (m : Bool) (n1 n2 : ℤ)
    (h1 : 0 < n1) (h12 : n1 ≤ n2)
    (hsetup : 0 ≤ p.setup_days) (hteardown : 0 ≤ p.teardown_days)
    (hcrew : 0 ≤ p.crew_size) (hrate : 0 ≤ p.labor_rate)
    (hcrane : 0 ≤ p.crane_rate) (hmoves : 0 ≤ p.moves_count) :
    (mkResult { p with num_homes := n2 } m).labor_cost
        ≤ (mkResult { p with num_homes := n1 } m).labor_cost
    ∧ (mkResult { p with num_homes := n2 } m).logistics_cost
        ≤ (mkResult { p with num_homes := n1 } m).logistics_cost
    ∧ (mkResult { p with num_homes := n2 } m).machine_cost
        = (mkResult { p with num_homes := n1 } m).machine_cost
    ∧ (p.setup_days = 0 → p.teardown_days = 0 →
        p.printer_monthly_payment = 0 →
        (mkResult { p with num_homes := n2 } m).cost_per_area
          = (mkResult { p with num_homes := n1 } m).cost_per_area) := by
  have hn1 : n1 ≠ 0 := ne_of_gt h1
  have hn2 : n2 ≠ 0 := by omega
  have hq1 : (0 : ℚ) < (n1 : ℚ) := by exact_mod_cast h1
  have hq2 : (0 : ℚ) < (n2 : ℚ) := by
    exact_mod_cast lt_of_lt_of_le h1 h12
  have hq12 : ((n1 : ℚ)) ≤ (n2 : ℚ) := by exact_mod_cast h12
  have hS : 0 ≤ total_setup_labor_project p := by
    unfold total_setup_labor_project labor_setup_per_move setup_hrs_per_move
      teardown_hrs_per_move SHIFT_HOURS
    have hc : (0 : ℚ) ≤ (p.crew_size : ℚ) := by exact_mod_cast hcrew
    have hm : (0 : ℚ) ≤ (p.moves_count : ℚ) := by exact_mod_cast hmoves
    have h8 : (0 : ℚ) ≤ p.setup_days * 8 + p.teardown_days * 8 := by linarith
    exact mul_nonneg (mul_nonneg (mul_nonneg h8 hc) hrate) hm
  have hT : 0 ≤ total_logistics_cost p := by
    unfold total_logistics_cost logistics_cost_per_move
    have hm : (0 : ℚ) ≤ (p.moves_count : ℚ) := by exact_mod_cast hmoves
    exact mul_nonneg (mul_nonneg (by linarith) hcrane) hm
  have hlabor : ∀ n : ℤ, n ≠ 0 →
      total_labor_cost_per_home { p with num_homes := n }
        = total_setup_labor_project p / (n : ℚ) + labor_print_per_home p := by
    intro n hn
    show (total_setup_labor_project p + labor_print_per_home p * (n : ℚ))
        / (n : ℚ) = _
    rw [add_div,
      mul_div_cancel_right₀ _ (show ((n : ℚ)) ≠ 0 by exact_mod_cast hn)]
  have hlog : ∀ n : ℤ,
      logistics_cost_per_home { p with num_homes := n }
        = total_logistics_cost p / (n : ℚ) :=
    fun n => rfl
  refine ⟨?_, ?_, rfl, ?_⟩
  · show total_labor_cost_per_home { p with num_homes := n2 }
      ≤ total_labor_cost_per_home { p with num_homes := n1 }
    rw [hlabor n2 hn2, hlabor n1 hn1]
    have hdiv : total_setup_labor_project p / (n2 : ℚ)
        ≤ total_setup_labor_project p / (n1 : ℚ) := by gcongr
    linarith
  · show logistics_cost_per_home { p with num_homes := n2 }
      ≤ logistics_cost_per_home { p with num_homes := n1 }
    rw [hlog n2, hlog n1]
    gcongr
  · intro hs ht hpay
    show cost_per_area { p with num_homes := n2 } m
      = cost_per_area { p with num_homes := n1 } m
    have hS0 : total_setup_labor_project p = 0 := by
      unfold total_setup_labor_project labor_setup_per_move setup_hrs_per_move
        teardown_hrs_per_move
      rw [hs, ht]
      ring
    have hT0 : total_logistics_cost p = 0 := by
      unfold total_logistics_cost logistics_cost_per_move
      rw [hs, ht]
      ring
    have hlease : ∀ n : ℤ,
        printer_lease_expense_per_home { p with num_homes := n } = 0 := by
      intro n
      unfold printer_lease_expense_per_home
      rw [if_neg]
      rintro ⟨-, h2⟩
      rw [show ({ p with num_homes := n } : CostInputs).printer_monthly_payment
          = p.printer_monthly_payment from rfl, hpay] at h2
      exact lt_irrefl 0 h2
    have hgrand : ∀ n : ℤ, n ≠ 0 →
        grand_total { p with num_homes := n }
          = total_mat_cost_per_home p + labor_print_per_home p
            + total_bos_cost p
            + (if own_printer p then machine_cost_per_home p else 0) := by
      intro n hn
      unfold grand_total cash_cogs_total cash_cogs_core
      rw [hlease n, hlabor n hn, hlog n, hS0, hT0,
        show total_mat_cost_per_home { p with num_homes := n }
          = total_mat_cost_per_home p from rfl,
        show total_bos_cost { p with num_homes := n }
          = total_bos_cost p from rfl,
        show own_printer { p with num_homes := n } = own_printer p from rfl,
        show machine_cost_per_home { p with num_homes := n }
          = machine_cost_per_home p from rfl]
      ring
    unfold cost_per_area
    rw [hgrand n2 hn2, hgrand n1 hn1,
      show ({ p with num_homes := n2 } : CostInputs).sq_ft_home
        = p.sq_ft_home from rfl,
      show ({ p with num_homes := n1 } : CostInputs).sq_ft_home
        = p.sq_ft_home from rfl]

/-- Witness for C7 at the concrete input exBase with 1 versus 2 homes. -/
theorem c7_per_home_amortization_witness :
    (mkResult { exBase with num_homes := 2 } false).labor_cost
      ≤ (mkResult { exBase with num_homes := 1 } false).labor_cost
    ∧ (mkResult { exBase with num_homes := 2 } false).logistics_cost
      ≤ (mkResult { exBase with num_homes := 1 } false).logistics_cost := by
  have h := c7_per_home_amortization exBase false 1 2 (by norm_num)
    (by norm_num) (by norm_num [exBase]) (by norm_num [exBase])
    (by norm_num [exBase]) (by norm_num [exBase]) (by norm_num [exBase])
    (by norm_num [exBase])
  exact ⟨h.1, h.2.1⟩

/-- Claim C8: the P&L derives gross profit = sale price minus cash COGS,
EBITDA = gross profit minus overhead with identical values in the cash and
accounting columns, cash EBIT = EBITDA while accounting EBIT = EBITDA minus
depreciation; and at sale price 0 the three margin metrics are all 0. -/
theorem c8_pnl_rows_and_metrics (res : CostResult) (sale sga : ℚ) :
    (⟨"Gross Profit", sale - res.cash_cogs_total,
        sale - res.cash_cogs_total⟩ : PnlRow) ∈ (build_pnl_df res sale sga).1
    ∧ (⟨"EBITDA", sale - res.cash_cogs_total - sga,
        sale - res.cash_cogs_total - sga⟩ : PnlRow)
          ∈ (build_pnl_df res sale sga).1
    ∧ (⟨"EBIT (Operating Profit)", sale - res.cash_cogs_total - sga,
        sale - res.cash_cogs_total - sga - res.machine_cost⟩ : PnlRow)
          ∈ (build_pnl_df res sale sga).1
    ∧ (sale = 0 → (build_pnl_df res sale sga).2
        = [⟨"EBITDA Margin", 0, 0⟩, ⟨"EBIT Margin", 0, 0⟩,
           ⟨"Cash COGS % of Revenue", 0, 0⟩]) := by
  refine ⟨?_, ?_, ?_, ?_⟩
  · unfold build_pnl_df
    simp
  · unfold build_pnl_df
    simp
  · unfold build_pnl_df
    simp
  · intro hz
    subst hz
    unfold build_pnl_df
    simp

/-- Witness for C8 at a concrete result record with sale price 0. -/
theorem c8_pnl_rows_and_metrics_witness :
    (build_pnl_df (mkResult exBase false) 0 5).2
      = [⟨"EBITDA Margin", 0, 0⟩, ⟨"EBIT Margin", 0, 0⟩,
         ⟨"Cash COGS % of Revenue", 0, 0⟩] :=
  (c8_pnl_rows_and_metrics (mkResult exBase false) 0 5).2.2.2 rfl

/-- Witness for C10 at print speed 0: the clamped speed is 1. -/
theorem c10_speed_clamp_witness :
    (mkResult exSpeedZero false).avg_speed_mm_s = 1
      ∧ 0 < (mkResult exSpeedZero false).avg_speed_mm_s := by
  have h := c10_speed_clamp exSpeedZero false (mkResult exSpeedZero false)
    (calculate_costs_some exSpeedZero false
      (by norm_num [exSpeedZero, exBase]) (by norm_num [exSpeedZero, exBase])
      (fun _ => ⟨by norm_num [exSpeedZero, exBase],
        by norm_num [exSpeedZero, exBase]⟩))
  exact ⟨h.2.1 (by norm_num [exSpeedZero, exBase]), h.2.2.1⟩

end App
